import Mathlib

/-!
Verification development for the ibc-rs light-client core.

This file gives a shallow embedding of the Tendermint light-client
subsystem of the repository:

* `crates/ibc/src/clients/ics07_tendermint/client_state.rs`
  (`ClientState`, `verify_height`, `verify_delay_passed`,
  `check_header_and_update_state`, `check_misbehaviour_and_update_state`,
  `ClientState::new`)
* `crates/ibc/src/core/ics04_channel/handler/recv_packet.rs` (`process`)
* `crates/ibc/src/core/ics23_commitment/commitment.rs`
  (`CommitmentPrefix`, `CommitmentProofBytes`)
* `crates/ibc/src/mock/client_state.rs` (`MockClientState` verifiers)

Modelling conventions:

* machine integers (`u64`) become `Nat`; none of the verified paths
  relies on wrap-around behaviour;
* `Duration` and `Timestamp` become `Nat` (nanoseconds);
* byte vectors (`Vec<u8>`) become `List Nat`;
* fallible Rust functions returning `Result<T, E>` become
  `Except E T`;
* the external tendermint verifier (`ProdVerifier::verify`,
  `validate_against_trusted`, `verify_commit_against_trusted`), an
  external collaborator per the specification, is modelled as a boolean
  oracle carried by the reader context;
* the host-provided `ClientReader` / `ChannelReader` traits become
  structures of lookup functions (`Height → Option _` etc.), with a
  typed "not found" represented by `none`.
-/

/-- Mirrors `Height { revision_number, revision_height }`
(`ibc::core::ics02_client::height`), ordered lexicographically
(revision number first). -/
structure Height where
  revisionNumber : Nat
  revisionHeight : Nat
deriving DecidableEq

/-- Lexicographic strict order on heights, as `Ord for Height` in the
source: compare revision numbers first, then revision heights. -/
def Height.ltProp (a b : Height) : Prop :=
  a.revisionNumber < b.revisionNumber ∨
    (a.revisionNumber = b.revisionNumber ∧ a.revisionHeight < b.revisionHeight)

instance : LT Height := ⟨Height.ltProp⟩

def Height.leProp (a b : Height) : Prop := a < b ∨ a = b

instance : LE Height := ⟨Height.leProp⟩

instance (a b : Height) : Decidable (a < b) :=
  decidable_of_iff
    (a.revisionNumber < b.revisionNumber ∨
      (a.revisionNumber = b.revisionNumber ∧ a.revisionHeight < b.revisionHeight))
    Iff.rfl

instance (a b : Height) : Decidable (a ≤ b) :=
  decidable_of_iff (a < b ∨ a = b) Iff.rfl

theorem Height.eq_iff (a b : Height) :
    a = b ↔ a.revisionNumber = b.revisionNumber ∧ a.revisionHeight = b.revisionHeight := by
  cases a; cases b; simp

theorem Height.lt_iff (a b : Height) :
    a < b ↔ (a.revisionNumber < b.revisionNumber ∨
      (a.revisionNumber = b.revisionNumber ∧ a.revisionHeight < b.revisionHeight)) := Iff.rfl

theorem Height.le_iff (a b : Height) : a ≤ b ↔ (a < b ∨ a = b) := Iff.rfl

theorem Height.not_lt_iff (a b : Height) : ¬ a < b ↔ b ≤ a := by
  simp only [Height.le_iff, Height.lt_iff, Height.eq_iff]
  omega

theorem Height.le_trans {a b c : Height} (h1 : a ≤ b) (h2 : b ≤ c) : a ≤ c := by
  simp only [Height.le_iff, Height.lt_iff, Height.eq_iff] at *
  omega

theorem Height.le_refl (a : Height) : a ≤ a := Or.inr rfl

theorem Height.le_of_not_lt {a b : Height} (h : ¬ a < b) : b ≤ a :=
  (Height.not_lt_iff a b).1 h

theorem Height.not_lt_of_le {a b : Height} (h : b ≤ a) : ¬ a < b :=
  (Height.not_lt_iff a b).2 h

theorem Height.lt_of_not_le {a b : Height} (h : ¬ a ≤ b) : b < a := by
  by_contra hc
  exact h ((Height.not_lt_iff b a).1 hc)

theorem Height.not_le_of_lt {a b : Height} (h : a < b) : ¬ b ≤ a :=
  fun hc => (Height.not_lt_iff a b).2 hc h

/-- Modelled from the spec: `Height::new` (ics02 `height.rs`, not under
`src/`); per the data-model section, `Height::new(0,0)` is invalid. -/
def Height.new (revNumber revHeight : Nat) : Option Height :=
  if revNumber = 0 ∧ revHeight = 0 then none else some ⟨revNumber, revHeight⟩

/-- Modelled from the spec: `Height::add` (ics02 `height.rs`, not under
`src/`); §4.5: `earliest_height = processed_height + delay_blocks`,
i.e. the block delta is added to the revision height. -/
def Height.add (h : Height) (delta : Nat) : Height :=
  ⟨h.revisionNumber, h.revisionHeight + delta⟩

/-- Mirrors `TrustThreshold { numerator, denominator }`
(ics02 `trust_threshold.rs`, not under `src/`); per the spec an exact
rational with `ZERO` a distinguished invalid sentinel. -/
structure TrustThreshold where
  numerator : Nat
  denominator : Nat
deriving DecidableEq

/-- Modelled from the spec: the `TrustThreshold::ZERO` sentinel. -/
def TrustThreshold.zero : TrustThreshold := ⟨0, 0⟩

/-- Mirrors `ChainId { id, version }` (ics24 `identifier.rs`, not under
`src/`): a chain name suffixed with a revision number. -/
structure ChainIdM where
  name : String
  version : Nat
deriving DecidableEq

/-- Modelled from the spec: the `ChainId` string form
`<name>-<revision>` whose total length is bounded by 50 bytes. -/
def ChainIdM.asStr (c : ChainIdM) : String :=
  c.name ++ "-" ++ toString c.version

/-- Modelled from the spec: `ChainId::with_version` keeps the chain name
and replaces the revision. -/
def ChainIdM.withVersion (c : ChainIdM) (v : Nat) : ChainIdM :=
  ⟨c.name, v⟩

/-- Error kinds of the ics07 Tendermint client
(`clients/ics07_tendermint/error.rs` kinds, as raised by the code under
`src/`); payloads are kept only where a claim mentions them. -/
inductive TmError where
  | chainIdTooLong : TmError
  | invalidTrustThreshold : TmError
  | invalidTendermintTrustThreshold : TmError
  | invalidMaxClockDrift : TmError
  | invalidLatestHeight : TmError
  | validationError : TmError
  | insufficientHeight (latestHeight targetHeight : Height) : TmError
  | clientFrozen (frozenHeight targetHeight : Height) : TmError
  | notEnoughTimeElapsed (currentTime earliestTime : Nat) : TmError
  | notEnoughBlocksElapsed (currentHeight earliestHeight : Height) : TmError
  | invalidHeaderHeight (height : Nat) : TmError
  | mismatchedRevisions : TmError
  | consensusStateNotFound : TmError
  | verificationFailed : TmError
  | headerTimestampTooHigh : TmError
  | headerTimestampTooLow : TmError
  | misbehaviourHeadersBlockHashesEqual : TmError
  | misbehaviourHeadersNotAtSameHeight : TmError
  | misbehaviourHeadersChainIdMismatch : TmError
  | misbehaviourTrustedValidatorHashMismatch : TmError
  | invalidConsensusStateTimestamp : TmError
  | consensusStateTimestampGteTrustingPeriod : TmError
deriving DecidableEq

/-- Mirrors the ics07 `ClientState` struct (client_state.rs lines
57-72).  Durations are nanoseconds as `Nat`; the stateless `verifier`
field is dropped (spec §9: model it as a free function). -/
structure ClientState where
  chainId : ChainIdM
  trustLevel : TrustThreshold
  trustingPeriod : Nat
  unbondingPeriod : Nat
  maxClockDrift : Nat
  latestHeight : Height
  proofSpecs : List Nat
  upgradePath : List String
  allowUpdateAfterExpiry : Bool
  allowUpdateAfterMisbehaviour : Bool
  frozenHeight : Option Height
deriving DecidableEq

/-- Mirrors `ClientState::with_frozen_height` (client_state.rs 205-210). -/
def ClientState.withFrozenHeight (cs : ClientState) (h : Height) : ClientState :=
  { cs with frozenHeight := some h }

/-- Mirrors `ClientState::verify_height` (client_state.rs 261-276):
insufficient-height check first, then the frozen check
`Some(frozen_height) if frozen_height <= height`. -/
def ClientState.verifyHeight (cs : ClientState) (height : Height) : Except TmError Unit :=
  if cs.latestHeight < height then
    .error (.insufficientHeight cs.latestHeight height)
  else
    match cs.frozenHeight with
    | some frozenHeight =>
      if frozenHeight ≤ height then .error (.clientFrozen frozenHeight height) else .ok ()
    | none => .ok ()

/-- Mirrors `ClientState::verify_delay_passed` (client_state.rs 232-258).
Timestamps are nanoseconds as `Nat`, so `processed_time + delay_period_time`
cannot overflow in the model (the `TimestampOverflow` branch of the
source is unreachable here). -/
def verifyDelayPassed (currentTime : Nat) (currentHeight : Height)
    (processedTime : Nat) (processedHeight : Height)
    (delayPeriodTime : Nat) (delayPeriodBlocks : Nat) : Except TmError Unit :=
  if ¬ (currentTime = processedTime + delayPeriodTime ∨
        processedTime + delayPeriodTime < currentTime) then
    .error (.notEnoughTimeElapsed currentTime (processedTime + delayPeriodTime))
  else if currentHeight < Height.add processedHeight delayPeriodBlocks then
    .error (.notEnoughBlocksElapsed currentHeight
      (Height.add processedHeight delayPeriodBlocks))
  else
    .ok ()


/-- Concrete client state used for the C3 counterexample and witness:
`latest_height = (1,10)`, `frozen_height = (1,5)` (spec scenario 6). -/
def c3ClientState : ClientState :=
  { chainId := ⟨"ibc", 1⟩, trustLevel := ⟨1, 3⟩,
    trustingPeriod := 64000000000000, unbondingPeriod := 128000000000000,
    maxClockDrift := 3000000000, latestHeight := ⟨1, 10⟩,
    proofSpecs := [0], upgradePath := [],
    allowUpdateAfterExpiry := false, allowUpdateAfterMisbehaviour := false,
    frozenHeight := some ⟨1, 5⟩ }

/-- C3 counterexample: for `latest_height = (1,10)`, `frozen_height = (1,5)`
and query height `(1,12)` we have `frozen_height ≤ h`, yet `verify_height`
returns `InsufficientHeight`, not `ClientFrozen` — the claim's unconditional
"when `frozen_height <= h` it returns the ClientFrozen error kind" is false:
the insufficient-height check takes precedence. -/
theorem c3_verify_height_counterexample :
    ((⟨1, 5⟩ : Height) ≤ ⟨1, 12⟩) ∧
    c3ClientState.verifyHeight ⟨1, 12⟩ =
      .error (.insufficientHeight ⟨1, 10⟩ ⟨1, 12⟩) :=
  ⟨by decide, rfl⟩

/-- C3 (amended): `verify_height(h)` returns `Ok` iff `h ≤ latest_height`
and (`frozen_height` unset or `h < frozen_height`); when `h > latest_height`
it returns `InsufficientHeight` (this check takes precedence), and when
`frozen_height ≤ h ≤ latest_height` it returns `ClientFrozen`. -/
theorem c3_verify_height_amended (cs : ClientState) (h : Height) :
    (cs.verifyHeight h = .ok () ↔
      (h ≤ cs.latestHeight ∧
        (cs.frozenHeight = none ∨ ∃ fh, cs.frozenHeight = some fh ∧ h < fh))) ∧
    (cs.latestHeight < h →
      cs.verifyHeight h = .error (.insufficientHeight cs.latestHeight h)) ∧
    (∀ fh, cs.frozenHeight = some fh → fh ≤ h → h ≤ cs.latestHeight →
      cs.verifyHeight h = .error (.clientFrozen fh h)) := by
  refine ⟨⟨?_, ?_⟩, ?_, ?_⟩
  · intro hok
    by_cases hlt : cs.latestHeight < h
    · simp only [ClientState.verifyHeight, if_pos hlt] at hok
      exact absurd hok (by simp)
    · refine ⟨Height.le_of_not_lt hlt, ?_⟩
      rcases hf : cs.frozenHeight with _ | fh
      · exact Or.inl rfl
      · by_cases hfl : fh ≤ h
        · simp only [ClientState.verifyHeight, if_neg hlt, hf, if_pos hfl] at hok
          exact absurd hok (by simp)
        · exact Or.inr ⟨fh, rfl, Height.lt_of_not_le hfl⟩
  · rintro ⟨hle, hfz⟩
    have hnlt := Height.not_lt_of_le hle
    rcases hfz with hf | ⟨fh, hf, hlt2⟩
    · simp only [ClientState.verifyHeight, if_neg hnlt, hf]
    · simp only [ClientState.verifyHeight, if_neg hnlt, hf,
        if_neg (Height.not_le_of_lt hlt2)]
  · intro hlt
    simp only [ClientState.verifyHeight, if_pos hlt]
  · intro fh hf hfl hle
    simp only [ClientState.verifyHeight, if_neg (Height.not_lt_of_le hle), hf,
      if_pos hfl]

/-- C3 witness: the amended theorem evaluated at concrete scenarios
(insufficient height, frozen below latest, and a passing query). -/
theorem c3_verify_height_amended_witness :
    c3ClientState.verifyHeight ⟨1, 12⟩ = .error (.insufficientHeight ⟨1, 10⟩ ⟨1, 12⟩) ∧
    c3ClientState.verifyHeight ⟨1, 6⟩ = .error (.clientFrozen ⟨1, 5⟩ ⟨1, 6⟩) ∧
    c3ClientState.verifyHeight ⟨1, 4⟩ = .ok () :=
  ⟨(c3_verify_height_amended c3ClientState ⟨1, 12⟩).2.1 (by decide),
   (c3_verify_height_amended c3ClientState ⟨1, 6⟩).2.2 ⟨1, 5⟩ rfl (by decide) (by decide),
   (c3_verify_height_amended c3ClientState ⟨1, 4⟩).1.2
     ⟨by decide, Or.inr ⟨⟨1, 5⟩, rfl, by decide⟩⟩⟩

/-- C7 counterexample: at `t = 0, pt = 1, dt = 0, h = (0,0), ph = (0,0),
db = 1` the block condition fails (`h < ph + db`) but the result is
`NotEnoughTimeElapsed`, not `NotEnoughBlocksElapsed`: the time check takes
precedence, so the claim's unconditional "on failure of the block condition
it returns NotEnoughBlocksElapsed" is false. -/
theorem c7_verify_delay_passed_counterexample :
    ((⟨0, 0⟩ : Height) < Height.add ⟨0, 0⟩ 1) ∧
    verifyDelayPassed 0 ⟨0, 0⟩ 1 ⟨0, 0⟩ 0 1 =
      .error (.notEnoughTimeElapsed 0 1) :=
  ⟨by decide, rfl⟩

/-- C7 (amended): `verify_delay_passed(t,h,pt,ph,dt,db)` returns `Ok` iff
`t ≥ pt + dt` and `h ≥ ph + db` (equality allowed), is monotone in `t` and
`h`, returns `NotEnoughTimeElapsed` whenever the time condition fails, and
returns `NotEnoughBlocksElapsed` carrying `earliest_height = ph + db` when
the time condition holds but the block condition fails. -/
theorem c7_verify_delay_passed (t : Nat) (h : Height) (pt : Nat) (ph : Height)
    (dt db : Nat) :
    (verifyDelayPassed t h pt ph dt db = .ok () ↔
      (pt + dt ≤ t ∧ Height.add ph db ≤ h)) ∧
    (t < pt + dt →
      verifyDelayPassed t h pt ph dt db = .error (.notEnoughTimeElapsed t (pt + dt))) ∧
    (pt + dt ≤ t → h < Height.add ph db →
      verifyDelayPassed t h pt ph dt db =
        .error (.notEnoughBlocksElapsed h (Height.add ph db))) ∧
    (∀ t2 h2, verifyDelayPassed t h pt ph dt db = .ok () → t ≤ t2 → h ≤ h2 →
      verifyDelayPassed t2 h2 pt ph dt db = .ok ()) := by
  have hiff : ∀ (t2 : Nat) (h2 : Height),
      verifyDelayPassed t2 h2 pt ph dt db = .ok () ↔
        (pt + dt ≤ t2 ∧ Height.add ph db ≤ h2) := by
    intro t2 h2
    unfold verifyDelayPassed
    by_cases h1 : t2 = pt + dt ∨ pt + dt < t2
    · by_cases h2c : h2 < Height.add ph db
      · rw [if_neg (not_not_intro h1), if_pos h2c]
        constructor
        · intro hc; exact absurd hc (by simp)
        · rintro ⟨-, hble⟩
          exact absurd h2c (Height.not_lt_of_le hble)
      · rw [if_neg (not_not_intro h1), if_neg h2c]
        constructor
        · intro _; exact ⟨by omega, Height.le_of_not_lt h2c⟩
        · intro _; rfl
    · rw [if_pos h1]
      constructor
      · intro hc; exact absurd hc (by simp)
      · rintro ⟨hle, -⟩
        exact absurd (by omega : t2 = pt + dt ∨ pt + dt < t2) h1
  refine ⟨hiff t h, ?_, ?_, ?_⟩
  · intro hlt
    unfold verifyDelayPassed
    rw [if_pos (by omega)]
  · intro hle hblk
    unfold verifyDelayPassed
    rw [if_neg (by omega), if_pos hblk]
  · intro t2 h2 hok hle hhle
    rcases (hiff t h).1 hok with ⟨h1, h2b⟩
    exact (hiff t2 h2).2 ⟨Nat.le_trans h1 hle, Height.le_trans h2b hhle⟩

/-- C7 witness: the amended theorem evaluated at the spec's concrete delay
scenarios 4 and 5 (shifted to absolute nanoseconds). -/
theorem c7_verify_delay_passed_witness :
    verifyDelayPassed 2000 ⟨0, 5⟩ 1000 ⟨0, 3⟩ 500 2 = .ok () ∧
    verifyDelayPassed 2000 ⟨0, 5⟩ 1000 ⟨0, 4⟩ 500 2 =
      .error (.notEnoughBlocksElapsed ⟨0, 5⟩ ⟨0, 6⟩) :=
  ⟨(c7_verify_delay_passed 2000 ⟨0, 5⟩ 1000 ⟨0, 3⟩ 500 2).1.2 ⟨by decide, by decide⟩,
   (c7_verify_delay_passed 2000 ⟨0, 5⟩ 1000 ⟨0, 4⟩ 500 2).2.2.1 (by decide) (by decide)⟩

/-- Mirrors the ics07 `ConsensusState` (spec §3): `(timestamp,
commitment_root, next_validators_hash)`; root and hash are opaque byte
strings modelled as `Nat`. -/
structure TmConsensusState where
  timestamp : Nat
  root : Nat
  nextValidatorsHash : Nat
deriving DecidableEq

/-- Mirrors the decoded ics07 `Header`: the signed header's height, time,
chain-id string, app hash and next-validators hash, the commit's block-id
hash, plus the trusted height and the hash of the accompanying trusted
validator set.  Validator sets and signatures themselves live behind the
external verifier oracles. -/
structure TmHeaderM where
  height : Height
  time : Nat
  chainIdStr : String
  appHash : Nat
  nextValidatorsHash : Nat
  commitBlockIdHash : Nat
  trustedHeight : Height
  trustedValidatorsHash : Nat
deriving DecidableEq

/-- Mirrors `TmConsensusState::from(Header)`: root from the header's app
hash, next-validators hash and timestamp taken from the header. -/
def consensusFromHeader (h : TmHeaderM) : TmConsensusState :=
  ⟨h.time, h.appHash, h.nextValidatorsHash⟩

/-- Host-provided `ClientReader` (spec §6) for a fixed client id, with the
external tendermint verifier entry points (`ProdVerifier::verify`,
`validate_against_trusted`, `verify_commit_against_trusted`) modelled as
boolean oracles; `none` models the typed `ConsensusStateNotFound`. -/
structure ClientReaderM where
  consensusState : Height → Option TmConsensusState
  nextConsensusState : Height → Option TmConsensusState
  prevConsensusState : Height → Option TmConsensusState
  hostTimestamp : Nat
  verify : TmHeaderM → TmConsensusState → Bool
  validateAgainstTrusted : TmHeaderM → TmConsensusState → Bool
  verifyCommitAgainstTrusted : TmHeaderM → TmConsensusState → Bool

/-- Mirrors `ClientState::with_header` (client_state.rs 192-203): the new
latest height keeps the pre-state's revision number and takes the
header's raw block height, failing only if `Height::new` rejects. -/
def ClientState.withHeader (cs : ClientState) (h : TmHeaderM) :
    Except TmError ClientState :=
  match Height.new cs.latestHeight.revisionNumber h.height.revisionHeight with
  | none => .error (.invalidHeaderHeight h.height.revisionHeight)
  | some nh => .ok { cs with latestHeight := nh }

/-- Mirrors `UpdatedState { client_state, consensus_state }`. -/
structure UpdatedState where
  clientState : ClientState
  consensusState : TmConsensusState
deriving DecidableEq

/-- Mirrors the (cs-new, cs-next) timestamp monotonicity check of
`check_header_and_update_state` (client_state.rs 524-546). -/
def monotonicityCheckNext (cs : ClientState) (ctx : ClientReaderM)
    (header : TmHeaderM) : Except TmError Unit :=
  if header.height < cs.latestHeight then
    match ctx.nextConsensusState header.height with
    | some nextCs =>
      if nextCs.timestamp < header.time then .error .headerTimestampTooHigh
      else .ok ()
    | none => .ok ()
  else .ok ()

/-- Mirrors the (cs-trusted, cs-prev) timestamp monotonicity check of
`check_header_and_update_state` (client_state.rs 548-569). -/
def monotonicityCheckPrev (ctx : ClientReaderM) (header : TmHeaderM) :
    Except TmError Unit :=
  if header.trustedHeight < header.height then
    match ctx.prevConsensusState header.height with
    | some prevCs =>
      if header.time < prevCs.timestamp then .error .headerTimestampTooLow
      else .ok ()
    | none => .ok ()
  else .ok ()

/-- Verification-and-commit tail of `check_header_and_update_state`
(client_state.rs 470-575): load the trusted consensus state, run the
external verifier, freeze on a recorded conflict (returning the
pre-existing consensus state), otherwise run the monotonicity checks and
commit `with_header` plus the consensus state derived from the header. -/
def verifyAndCommit (cs : ClientState) (ctx : ClientReaderM) (header : TmHeaderM)
    (conflict : Option TmConsensusState) : Except TmError UpdatedState :=
  match ctx.consensusState header.trustedHeight with
  | none => .error .consensusStateNotFound
  | some trustedCs =>
    if ctx.verify header trustedCs then
      match conflict with
      | some cs0 => .ok ⟨cs.withFrozenHeight header.height, cs0⟩
      | none =>
        match monotonicityCheckNext cs ctx header with
        | .error e => .error e
        | .ok _ =>
          match monotonicityCheckPrev ctx header with
          | .error e => .error e
          | .ok _ =>
            match cs.withHeader header with
            | .error e => .error e
            | .ok cs2 => .ok ⟨cs2, consensusFromHeader header⟩
    else .error .verificationFailed

/-- Mirrors `check_header_and_update_state` (client_state.rs 412-575):
revision check, idempotent shortcut / conflict recording against an
already-stored consensus state at the header height, then verification
and commit. -/
def checkHeaderAndUpdateState (cs : ClientState) (ctx : ClientReaderM)
    (header : TmHeaderM) : Except TmError UpdatedState :=
  if header.height.revisionNumber ≠ cs.chainId.version then
    .error .mismatchedRevisions
  else
    match ctx.consensusState header.height with
    | some cs0 =>
      if cs0 = consensusFromHeader header then
        .ok ⟨cs, cs0⟩
      else
        verifyAndCommit cs ctx header (some cs0)
    | none => verifyAndCommit cs ctx header none

theorem withHeader_ok {cs : ClientState} {h : TmHeaderM} {cs2 : ClientState}
    (hw : cs.withHeader h = .ok cs2) :
    cs2 = { cs with
      latestHeight := ⟨cs.latestHeight.revisionNumber, h.height.revisionHeight⟩ } := by
  unfold ClientState.withHeader at hw
  split at hw
  · exact absurd hw (by simp)
  · rename_i nh heq
    unfold Height.new at heq
    split at heq
    · exact Option.noConfusion heq
    · cases Option.some.inj heq
      exact (Except.ok.inj hw).symm

/-- Pre-state for the C1 counterexample: unfrozen, `latest_height = (0,5)`. -/
def c1ClientState : ClientState :=
  { chainId := ⟨"ibc", 0⟩, trustLevel := ⟨1, 3⟩,
    trustingPeriod := 64000000000000, unbondingPeriod := 128000000000000,
    maxClockDrift := 3000000000, latestHeight := ⟨0, 5⟩,
    proofSpecs := [0], upgradePath := [],
    allowUpdateAfterExpiry := false, allowUpdateAfterMisbehaviour := false,
    frozenHeight := none }

/-- In-the-middle header at height `(0,3)` (below `latest_height`), trusted
at `(0,2)`, for the C1 counterexample. -/
def c1Header : TmHeaderM :=
  { height := ⟨0, 3⟩, time := 100, chainIdStr := "ibc-0", appHash := 7,
    nextValidatorsHash := 8, commitBlockIdHash := 9,
    trustedHeight := ⟨0, 2⟩, trustedValidatorsHash := 8 }

/-- Reader for the C1 counterexample: a trusted consensus state at `(0,2)`,
no stored state at `(0,3)`, neighbours whose timestamps satisfy the
monotonicity checks, and a verifier oracle that accepts. -/
def c1Ctx : ClientReaderM :=
  { consensusState := fun h => if h = ⟨0, 2⟩ then some ⟨50, 1, 8⟩ else none,
    nextConsensusState := fun h => if h = ⟨0, 3⟩ then some ⟨200, 2, 8⟩ else none,
    prevConsensusState := fun h => if h = ⟨0, 3⟩ then some ⟨50, 1, 8⟩ else none,
    hostTimestamp := 1000,
    verify := fun _ _ => true,
    validateAgainstTrusted := fun _ _ => true,
    verifyCommitAgainstTrusted := fun _ _ => true }

/-- Expected post-state of the accepted C1 in-the-middle update. -/
def c1Post : UpdatedState :=
  ⟨{ c1ClientState with latestHeight := ⟨0, 3⟩ }, ⟨100, 7, 8⟩⟩

/-- C1 counterexample: an accepted in-the-middle update (header height
`(0,3)` below the pre-state's `latest_height = (0,5)`) returns a client
state whose `latest_height` strictly decreased and which is not frozen, so
neither disjunct of the claim holds: `with_header` overwrites
`latest_height` with the header's height unconditionally. -/
theorem c1_in_middle_update_counterexample :
    checkHeaderAndUpdateState c1ClientState c1Ctx c1Header = .ok c1Post ∧
    ¬ c1ClientState.latestHeight ≤ c1Post.clientState.latestHeight ∧
    c1Post.clientState.frozenHeight ≠ some c1Header.height :=
  ⟨rfl, by decide, by decide⟩

/-- C1 (amended): every accepted update either keeps or raises the latest
height, or freezes at the header height, or — the accepted in-the-middle
case — sets `latest_height` to the header's height under the pre-state's
revision number, which may lie strictly below the pre-state's height. -/
theorem c1_update_latest_height_amended (cs : ClientState) (ctx : ClientReaderM)
    (header : TmHeaderM) (u : UpdatedState)
    (hok : checkHeaderAndUpdateState cs ctx header = .ok u) :
    cs.latestHeight ≤ u.clientState.latestHeight
    ∨ u.clientState.frozenHeight = some header.height
    ∨ u.clientState.latestHeight =
        ⟨cs.latestHeight.revisionNumber, header.height.revisionHeight⟩ := by
  have hvc : ∀ conflict, verifyAndCommit cs ctx header conflict = .ok u →
      u.clientState.frozenHeight = some header.height ∨
      u.clientState.latestHeight =
        ⟨cs.latestHeight.revisionNumber, header.height.revisionHeight⟩ := by
    intro conflict hv
    unfold verifyAndCommit at hv
    split at hv
    · exact absurd hv (by simp)
    · split at hv
      · split at hv
        · cases Except.ok.inj hv
          exact Or.inl rfl
        · split at hv
          · exact absurd hv (by simp)
          · split at hv
            · exact absurd hv (by simp)
            · split at hv
              · exact absurd hv (by simp)
              · rename_i cs2 hw
                cases Except.ok.inj hv
                exact Or.inr (by rw [withHeader_ok hw])
      · exact absurd hv (by simp)
  unfold checkHeaderAndUpdateState at hok
  split at hok
  · exact absurd hok (by simp)
  · split at hok
    · split at hok
      · cases Except.ok.inj hok
        exact Or.inl (Height.le_refl _)
      · exact Or.inr (hvc _ hok)
    · exact Or.inr (hvc _ hok)

/-- C1 witness: the amended theorem applied to the concrete accepted
in-the-middle update. -/
theorem c1_update_latest_height_amended_witness :
    c1ClientState.latestHeight ≤ c1Post.clientState.latestHeight
    ∨ c1Post.clientState.frozenHeight = some c1Header.height
    ∨ c1Post.clientState.latestHeight =
        ⟨c1ClientState.latestHeight.revisionNumber, c1Header.height.revisionHeight⟩ :=
  c1_update_latest_height_amended c1ClientState c1Ctx c1Header c1Post rfl

/-- C2: when a consensus state is already stored at the header's height,
an equal stored state makes the update a no-op that returns the unchanged
client state (latest height not advanced, even when the header height
exceeds it) and the stored consensus state; a differing stored state with
a verified header returns the client state frozen at `header.height`
together with the pre-existing stored consensus state, not the new one. -/
theorem c2_stored_consensus_state (cs : ClientState) (ctx : ClientReaderM)
    (header : TmHeaderM) (cs0 : TmConsensusState)
    (hrev : header.height.revisionNumber = cs.chainId.version)
    (hexist : ctx.consensusState header.height = some cs0) :
    (cs0 = consensusFromHeader header →
      checkHeaderAndUpdateState cs ctx header = .ok ⟨cs, cs0⟩) ∧
    (cs0 ≠ consensusFromHeader header →
      ∀ tcs, ctx.consensusState header.trustedHeight = some tcs →
        ctx.verify header tcs = true →
        checkHeaderAndUpdateState cs ctx header =
          .ok ⟨cs.withFrozenHeight header.height, cs0⟩) := by
  constructor
  · intro heq
    simp only [checkHeaderAndUpdateState, hexist]
    rw [if_neg (not_not_intro hrev), if_pos heq]
  · intro hne tcs htcs hv
    simp only [checkHeaderAndUpdateState, verifyAndCommit, hexist, htcs]
    rw [if_neg (not_not_intro hrev), if_neg hne, if_pos hv]

/-- Pre-state for the C2 witness: unfrozen, `latest_height = (0,5)`. -/
def c2ClientState : ClientState :=
  { chainId := ⟨"ibc", 0⟩, trustLevel := ⟨1, 3⟩,
    trustingPeriod := 64000000000000, unbondingPeriod := 128000000000000,
    maxClockDrift := 3000000000, latestHeight := ⟨0, 5⟩,
    proofSpecs := [0], upgradePath := [],
    allowUpdateAfterExpiry := false, allowUpdateAfterMisbehaviour := false,
    frozenHeight := none }

/-- Header at height `(0,7)` (above `latest_height`) for the C2 witness. -/
def c2Header : TmHeaderM :=
  { height := ⟨0, 7⟩, time := 100, chainIdStr := "ibc-0", appHash := 7,
    nextValidatorsHash := 8, commitBlockIdHash := 9,
    trustedHeight := ⟨0, 2⟩, trustedValidatorsHash := 8 }

/-- Reader with a stored consensus state at the header height that equals
the one derived from the header. -/
def c2CtxEq : ClientReaderM :=
  { consensusState := fun h =>
      if h = ⟨0, 7⟩ then some ⟨100, 7, 8⟩
      else if h = ⟨0, 2⟩ then some ⟨50, 1, 8⟩ else none,
    nextConsensusState := fun _ => none,
    prevConsensusState := fun _ => none,
    hostTimestamp := 1000,
    verify := fun _ _ => true,
    validateAgainstTrusted := fun _ _ => true,
    verifyCommitAgainstTrusted := fun _ _ => true }

/-- Reader with a stored consensus state at the header height that differs
from the one derived from the header. -/
def c2CtxNe : ClientReaderM :=
  { c2CtxEq with consensusState := fun h =>
      if h = ⟨0, 7⟩ then some ⟨99, 6, 8⟩
      else if h = ⟨0, 2⟩ then some ⟨50, 1, 8⟩ else none }

/-- C2 witness: the theorem applied to a concrete replayed header (no-op,
latest height kept at `(0,5)` although the header is at `(0,7)`) and to a
concrete conflicting header (freeze at `(0,7)`, stored state returned). -/
theorem c2_stored_consensus_state_witness :
    checkHeaderAndUpdateState c2ClientState c2CtxEq c2Header =
      .ok ⟨c2ClientState, ⟨100, 7, 8⟩⟩ ∧
    checkHeaderAndUpdateState c2ClientState c2CtxNe c2Header =
      .ok ⟨c2ClientState.withFrozenHeight ⟨0, 7⟩, ⟨99, 6, 8⟩⟩ :=
  ⟨(c2_stored_consensus_state c2ClientState c2CtxEq c2Header ⟨100, 7, 8⟩ rfl rfl).1 rfl,
   (c2_stored_consensus_state c2ClientState c2CtxNe c2Header ⟨99, 6, 8⟩ rfl rfl).2
     (by decide) ⟨50, 1, 8⟩ rfl rfl⟩

/-- Mirrors the decoded `TmMisbehaviour` (its `client_id` plays no role in
the checked logic). -/
structure TmMisbehaviourM where
  header1 : TmHeaderM
  header2 : TmHeaderM
deriving DecidableEq

/-- Mirrors `check_header_validator_set` (client_state.rs 278-294): the
trusted consensus state's next-validators hash must equal the hash of the
header's trusted validator set. -/
def checkHeaderValidatorSet (trustedConsensusState : TmConsensusState)
    (header : TmHeaderM) : Except TmError Unit :=
  if trustedConsensusState.nextValidatorsHash ≠ header.trustedValidatorsHash then
    .error .misbehaviourTrustedValidatorHashMismatch
  else .ok ()

/-- Mirrors `check_header_and_validator_set` (client_state.rs 296-334):
validator-hash check, trusting-period freshness of the trusted consensus
state (`duration_since` is `none` when the current timestamp is earlier),
then `validate_against_trusted` via the external verifier oracle. -/
def ClientState.checkHeaderAndValidatorSet (cs : ClientState) (ctx : ClientReaderM)
    (header : TmHeaderM) (consensusState : TmConsensusState)
    (currentTimestamp : Nat) : Except TmError Unit :=
  match checkHeaderValidatorSet consensusState header with
  | .error e => .error e
  | .ok _ =>
    if currentTimestamp < consensusState.timestamp then
      .error .invalidConsensusStateTimestamp
    else if cs.trustingPeriod ≤ currentTimestamp - consensusState.timestamp then
      .error .consensusStateTimestampGteTrustingPeriod
    else if ctx.validateAgainstTrusted header consensusState then .ok ()
    else .error .verificationFailed

/-- Mirrors `verify_header_commit_against_trusted` (client_state.rs
336-351), with the external `verify_commit_against_trusted` as an oracle
(the client state supplies the verifier options behind the oracle). -/
def ClientState.verifyHeaderCommit (_cs : ClientState) (ctx : ClientReaderM)
    (header : TmHeaderM) (consensusState : TmConsensusState) : Except TmError Unit :=
  if ctx.verifyCommitAgainstTrusted header consensusState then .ok ()
  else .error .verificationFailed

/-- Tail of `check_misbehaviour_and_update_state` (client_state.rs
601-634): trusted consensus-state lookups for both headers, the chain-id
match against `self.chain_id.with_version(h1.height.revision_number)`
(spec §4.3; `chain_id_matches` compares header1's chain-id string), the
per-header validator-set and commit verification, then the freeze at the
`Height(0,1)` sentinel (`Height::new(0,1).unwrap()`). -/
def misbehaviourChecksTail (cs : ClientState) (ctx : ClientReaderM)
    (m : TmMisbehaviourM) : Except TmError ClientState :=
  match ctx.consensusState m.header1.trustedHeight with
  | none => .error .consensusStateNotFound
  | some consensusState1 =>
    match ctx.consensusState m.header2.trustedHeight with
    | none => .error .consensusStateNotFound
    | some consensusState2 =>
      if m.header1.chainIdStr ≠
          (cs.chainId.withVersion m.header1.height.revisionNumber).asStr then
        .error .misbehaviourHeadersChainIdMismatch
      else
        match cs.checkHeaderAndValidatorSet ctx m.header1 consensusState1
            ctx.hostTimestamp with
        | .error e => .error e
        | .ok _ =>
          match cs.checkHeaderAndValidatorSet ctx m.header2 consensusState2
              ctx.hostTimestamp with
          | .error e => .error e
          | .ok _ =>
            match cs.verifyHeaderCommit ctx m.header1 consensusState1 with
            | .error e => .error e
            | .ok _ =>
              match cs.verifyHeaderCommit ctx m.header2 consensusState2 with
              | .error e => .error e
              | .ok _ => .ok (cs.withFrozenHeight ⟨0, 1⟩)

/-- Mirrors `check_misbehaviour_and_update_state` (client_state.rs
577-634): fork check at equal heights (equal commit block-id hashes are
rejected), BFT-time check at different heights (`h1.time > h2.time` is
rejected), then the common verification tail. -/
def checkMisbehaviourAndUpdateState (cs : ClientState) (ctx : ClientReaderM)
    (m : TmMisbehaviourM) : Except TmError ClientState :=
  if m.header1.height = m.header2.height then
    if m.header1.commitBlockIdHash = m.header2.commitBlockIdHash then
      .error .misbehaviourHeadersBlockHashesEqual
    else misbehaviourChecksTail cs ctx m
  else if m.header2.time < m.header1.time then
    .error .misbehaviourHeadersNotAtSameHeight
  else misbehaviourChecksTail cs ctx m

theorem misbehaviourChecksTail_ok {cs : ClientState} {ctx : ClientReaderM}
    {m : TmMisbehaviourM} {cs2 : ClientState}
    (h : misbehaviourChecksTail cs ctx m = .ok cs2) :
    cs2 = cs.withFrozenHeight ⟨0, 1⟩ := by
  unfold misbehaviourChecksTail at h
  split at h
  · exact absurd h (by simp)
  · split at h
    · exact absurd h (by simp)
    · split at h
      · exact absurd h (by simp)
      · split at h
        · exact absurd h (by simp)
        · split at h
          · exact absurd h (by simp)
          · split at h
            · exact absurd h (by simp)
            · split at h
              · exact absurd h (by simp)
              · exact (Except.ok.inj h).symm

/-- C4: `check_misbehaviour_and_update_state` rejects two headers of equal
height with equal commit block-id hashes with
`MisbehaviourHeadersBlockHashesEqual`; rejects headers of different
heights with `h1.time > h2.time` (so `h1.time ≤ h2.time` is the only
different-height shape that can proceed); and whenever the whole check
succeeds, the returned client state is the pre-state with
`frozen_height = Height(0,1)` and every other field unchanged. -/
theorem c4_misbehaviour_checks (cs : ClientState) (ctx : ClientReaderM)
    (m : TmMisbehaviourM) :
    (m.header1.height = m.header2.height →
      m.header1.commitBlockIdHash = m.header2.commitBlockIdHash →
      checkMisbehaviourAndUpdateState cs ctx m =
        .error .misbehaviourHeadersBlockHashesEqual) ∧
    (m.header1.height ≠ m.header2.height →
      m.header2.time < m.header1.time →
      checkMisbehaviourAndUpdateState cs ctx m =
        .error .misbehaviourHeadersNotAtSameHeight) ∧
    (∀ cs2, checkMisbehaviourAndUpdateState cs ctx m = .ok cs2 →
      cs2 = cs.withFrozenHeight ⟨0, 1⟩) := by
  refine ⟨?_, ?_, ?_⟩
  · intro hh hc
    unfold checkMisbehaviourAndUpdateState
    rw [if_pos hh, if_pos hc]
  · intro hh ht
    unfold checkMisbehaviourAndUpdateState
    rw [if_neg hh, if_pos ht]
  · intro cs2 h
    unfold checkMisbehaviourAndUpdateState at h
    split at h
    · split at h
      · exact absurd h (by simp)
      · exact misbehaviourChecksTail_ok h
    · split at h
      · exact absurd h (by simp)
      · exact misbehaviourChecksTail_ok h

/-- Pre-state for the C4 witness. -/
def c4ClientState : ClientState :=
  { chainId := ⟨"ibc", 0⟩, trustLevel := ⟨1, 3⟩,
    trustingPeriod := 64000000000000, unbondingPeriod := 128000000000000,
    maxClockDrift := 3000000000, latestHeight := ⟨0, 5⟩,
    proofSpecs := [0], upgradePath := [],
    allowUpdateAfterExpiry := false, allowUpdateAfterMisbehaviour := false,
    frozenHeight := none }

/-- First misbehaviour header for the C4 witness. -/
def c4HeaderA : TmHeaderM :=
  { height := ⟨0, 9⟩, time := 500, chainIdStr := "ibc-0", appHash := 7,
    nextValidatorsHash := 8, commitBlockIdHash := 11,
    trustedHeight := ⟨0, 2⟩, trustedValidatorsHash := 8 }

/-- Second misbehaviour header for the C4 witness: lower height but later
time than `c4HeaderA` (a BFT-time violation shape). -/
def c4HeaderB : TmHeaderM :=
  { c4HeaderA with height := ⟨0, 8⟩, time := 600, commitBlockIdHash := 12 }

/-- Reader for the C4 witness: trusted consensus state at `(0,2)` whose
next-validators hash matches the headers, fresh timestamps, accepting
verifier oracles. -/
def c4Ctx : ClientReaderM :=
  { consensusState := fun h => if h = ⟨0, 2⟩ then some ⟨50, 1, 8⟩ else none,
    nextConsensusState := fun _ => none,
    prevConsensusState := fun _ => none,
    hostTimestamp := 1000,
    verify := fun _ _ => true,
    validateAgainstTrusted := fun _ _ => true,
    verifyCommitAgainstTrusted := fun _ _ => true }

/-- C4 witness: the theorem applied to a same-height/same-hash pair, a
different-height pair with the lower-height header earlier in time, and a
concrete fully-successful misbehaviour whose result is the frozen
pre-state. -/
theorem c4_misbehaviour_checks_witness :
    checkMisbehaviourAndUpdateState c4ClientState c4Ctx
        ⟨c4HeaderA, { c4HeaderA with appHash := 13 }⟩ =
      .error .misbehaviourHeadersBlockHashesEqual ∧
    checkMisbehaviourAndUpdateState c4ClientState c4Ctx
        ⟨{ c4HeaderA with time := 700 }, c4HeaderB⟩ =
      .error .misbehaviourHeadersNotAtSameHeight ∧
    c4ClientState.withFrozenHeight ⟨0, 1⟩ = c4ClientState.withFrozenHeight ⟨0, 1⟩ :=
  ⟨(c4_misbehaviour_checks c4ClientState c4Ctx
      ⟨c4HeaderA, { c4HeaderA with appHash := 13 }⟩).1 rfl rfl,
   (c4_misbehaviour_checks c4ClientState c4Ctx
      ⟨{ c4HeaderA with time := 700 }, c4HeaderB⟩).2.1 (by decide) (by decide),
   (c4_misbehaviour_checks c4ClientState c4Ctx ⟨c4HeaderA, c4HeaderB⟩).2.2
     (c4ClientState.withFrozenHeight ⟨0, 1⟩) rfl⟩

/-- Mirrors the `TendermintTrustThresholdFraction::new` validation invoked
by `ClientState::new` (client_state.rs 111-115).  The tendermint crate is
an external collaborator; per the spec (component C3) the trust level must
lie in `[1/3, 1)` with a positive denominator. -/
def tmTrustThresholdOk (t : TrustThreshold) : Bool :=
  decide (0 < t.denominator) && decide (t.denominator ≤ 3 * t.numerator) &&
    decide (t.numerator < t.denominator)

/-- Property form of the trust-level range `[1/3, 1)`. -/
def trustThresholdInRange (t : TrustThreshold) : Prop :=
  0 < t.denominator ∧ t.denominator ≤ 3 * t.numerator ∧ t.numerator < t.denominator

instance (t : TrustThreshold) : Decidable (trustThresholdInRange t) :=
  decidable_of_iff
    (0 < t.denominator ∧ t.denominator ≤ 3 * t.numerator ∧ t.numerator < t.denominator)
    Iff.rfl

theorem tmTrustThresholdOk_iff (t : TrustThreshold) :
    tmTrustThresholdOk t = true ↔ trustThresholdInRange t := by
  simp [tmTrustThresholdOk, trustThresholdInRange, and_assoc]

/-- Mirrors `ClientState::new` (client_state.rs 83-186) with its checks in
source order; `MaxChainIdLen = 50`; durations are `Nat` nanoseconds so
"`<= 0`" becomes "`= 0`"; only the error kinds of the source errors are
kept (their reason strings are dropped). -/
def clientStateNew (chainId : ChainIdM) (trustLevel : TrustThreshold)
    (trustingPeriod unbondingPeriod maxClockDrift : Nat) (latestHeight : Height)
    (proofSpecs : List Nat) (upgradePath : List String)
    (allowUpdateAfterExpiry allowUpdateAfterMisbehaviour : Bool)
    (frozenHeight : Option Height) : Except TmError ClientState :=
  if 50 < chainId.asStr.length then .error .chainIdTooLong
  else if trustLevel = TrustThreshold.zero then .error .invalidTrustThreshold
  else if tmTrustThresholdOk trustLevel = false then
    .error .invalidTendermintTrustThreshold
  else if trustingPeriod = 0 then .error .invalidTrustThreshold
  else if unbondingPeriod = 0 then .error .invalidTrustThreshold
  else if unbondingPeriod ≤ trustingPeriod then .error .invalidTrustThreshold
  else if maxClockDrift = 0 then .error .invalidMaxClockDrift
  else if latestHeight.revisionNumber ≠ chainId.version then
    .error .invalidLatestHeight
  else if proofSpecs.isEmpty then .error .validationError
  else if upgradePath.any (fun k => k.trim.isEmpty) then .error .validationError
  else .ok
    { chainId := chainId, trustLevel := trustLevel,
      trustingPeriod := trustingPeriod, unbondingPeriod := unbondingPeriod,
      maxClockDrift := maxClockDrift, latestHeight := latestHeight,
      proofSpecs := proofSpecs, upgradePath := upgradePath,
      allowUpdateAfterExpiry := allowUpdateAfterExpiry,
      allowUpdateAfterMisbehaviour := allowUpdateAfterMisbehaviour,
      frozenHeight := frozenHeight }

set_option maxHeartbeats 1000000 in
theorem clientStateNew_ok_fields {chainId : ChainIdM} {trustLevel : TrustThreshold}
    {tp ub mcd : Nat} {lh : Height} {ps : List Nat} {up : List String}
    {aue aum : Bool} {fz : Option Height} {cs : ClientState}
    (h : clientStateNew chainId trustLevel tp ub mcd lh ps up aue aum fz = .ok cs) :
    cs = ⟨chainId, trustLevel, tp, ub, mcd, lh, ps, up, aue, aum, fz⟩ := by
  unfold clientStateNew at h
  split_ifs at h <;> first
    | exact (Except.ok.inj h).symm
    | exact absurd h (by simp)

set_option maxHeartbeats 1000000 in
theorem clientStateNew_ok_iff (chainId : ChainIdM) (trustLevel : TrustThreshold)
    (tp ub mcd : Nat) (lh : Height) (ps : List Nat) (up : List String)
    (aue aum : Bool) (fz : Option Height) :
    (∃ cs, clientStateNew chainId trustLevel tp ub mcd lh ps up aue aum fz = .ok cs) ↔
      (chainId.asStr.length ≤ 50 ∧ trustThresholdInRange trustLevel ∧
       0 < tp ∧ tp < ub ∧ 0 < mcd ∧ lh.revisionNumber = chainId.version ∧
       ps ≠ [] ∧ ∀ k ∈ up, k.trim.isEmpty = false) := by
  unfold clientStateNew
  split_ifs with h1 h2 h3 h4 h5 h6 h7 h8 h9 h10 <;>
    simp_all [trustThresholdInRange, tmTrustThresholdOk, TrustThreshold.zero,
      List.isEmpty_iff, List.any_eq_true, List.eq_nil_iff_forall_not_mem] <;>
    omega

/-- C8: every client state accepted by `ClientState::new` satisfies the
construction rules (`0 < trusting_period < unbonding_period`, trust level
in `[1/3, 1)`, chain-id version matching the latest height's revision,
chain-id string of at most 50 bytes, non-empty proof specs, positive max
clock drift, no blank upgrade-path entry); acceptance holds exactly when
the inputs satisfy those rules; and, with the earlier checks passing,
`trusting_period ≥ unbonding_period` with both positive yields the
`InvalidTrustThreshold` error kind. -/
theorem c8_client_state_new (chainId : ChainIdM) (trustLevel : TrustThreshold)
    (tp ub mcd : Nat) (lh : Height) (ps : List Nat) (up : List String)
    (aue aum : Bool) (fz : Option Height) :
    (∀ cs, clientStateNew chainId trustLevel tp ub mcd lh ps up aue aum fz = .ok cs →
      0 < cs.trustingPeriod ∧ cs.trustingPeriod < cs.unbondingPeriod ∧
      trustThresholdInRange cs.trustLevel ∧
      cs.chainId.version = cs.latestHeight.revisionNumber ∧
      cs.chainId.asStr.length ≤ 50 ∧
      cs.proofSpecs ≠ [] ∧ 0 < cs.maxClockDrift ∧
      ∀ k ∈ cs.upgradePath, k.trim.isEmpty = false) ∧
    ((∃ cs, clientStateNew chainId trustLevel tp ub mcd lh ps up aue aum fz = .ok cs) ↔
      (chainId.asStr.length ≤ 50 ∧ trustThresholdInRange trustLevel ∧
       0 < tp ∧ tp < ub ∧ 0 < mcd ∧ lh.revisionNumber = chainId.version ∧
       ps ≠ [] ∧ ∀ k ∈ up, k.trim.isEmpty = false)) ∧
    (chainId.asStr.length ≤ 50 → trustThresholdInRange trustLevel →
      0 < tp → 0 < ub → ub ≤ tp →
      clientStateNew chainId trustLevel tp ub mcd lh ps up aue aum fz =
        .error .invalidTrustThreshold) := by
  refine ⟨?_, clientStateNew_ok_iff _ _ _ _ _ _ _ _ _ _ _, ?_⟩
  · intro cs hok
    have hfields := clientStateNew_ok_fields hok
    rcases (clientStateNew_ok_iff chainId trustLevel tp ub mcd lh ps up aue aum
      fz).1 ⟨cs, hok⟩ with ⟨r1, r2, r3, r4, r5, r6, r7, r8⟩
    subst hfields
    exact ⟨r3, r4, r2, r6.symm, r1, r7, r5, r8⟩
  · intro hlen htl htp hub hle
    have htm : tmTrustThresholdOk trustLevel = true :=
      (tmTrustThresholdOk_iff trustLevel).2 htl
    have hz : trustLevel ≠ TrustThreshold.zero := by
      rintro rfl
      rcases htl with ⟨hd, -⟩
      exact absurd hd (by decide)
    unfold clientStateNew
    rw [if_neg (by omega), if_neg hz, if_neg (by simp [htm]),
      if_neg (by omega), if_neg (by omega), if_pos hle]

/-- C8 witness: the theorem applied to the spec's concrete scenarios — a
valid construction, and `trusting_period = unbonding_period` (both
positive) rejected with `InvalidTrustThreshold`. -/
theorem c8_client_state_new_witness :
    (∃ cs, clientStateNew ⟨"ibc", 0⟩ ⟨1, 3⟩ 64000000000000 128000000000000
        3000000000 ⟨0, 10⟩ [0] [] false false none = .ok cs) ∧
    clientStateNew ⟨"ibc", 0⟩ ⟨1, 3⟩ 10000000000 10000000000
        3000000000 ⟨0, 10⟩ [0] [] false false none =
      .error .invalidTrustThreshold :=
  ⟨(c8_client_state_new ⟨"ibc", 0⟩ ⟨1, 3⟩ 64000000000000 128000000000000
      3000000000 ⟨0, 10⟩ [0] [] false false none).2.1.2
    ⟨by decide, by decide, by decide, by decide, by decide, by decide, by decide,
     by intro k hk; cases hk⟩,
   (c8_client_state_new ⟨"ibc", 0⟩ ⟨1, 3⟩ 10000000000 10000000000
      3000000000 ⟨0, 10⟩ [0] [] false false none).2.2
    (by decide) (by decide) (by decide) (by decide) (by decide)⟩

/-- Error kinds of `ics23_commitment::error::CommitmentError` used by the
commitment value types (commitment.rs). -/
inductive CommitmentErrorM where
  | emptyMerkleProof
  | emptyCommitmentPrefix
  | invalidRawMerkleProof
deriving DecidableEq

/-- Mirrors `CommitmentProofBytes { bytes }` (commitment.rs 56-62). -/
structure CommitmentProofBytesM where
  bytes : List Nat
deriving DecidableEq

/-- Mirrors `TryFrom<Vec<u8>> for CommitmentProofBytes` (commitment.rs
71-81): an empty vector is rejected with `EmptyMerkleProof`. -/
def commitmentProofBytesTryFrom (bytes : List Nat) :
    Except CommitmentErrorM CommitmentProofBytesM :=
  if bytes.isEmpty then .error .emptyMerkleProof else .ok ⟨bytes⟩

/-- Mirrors `CommitmentPrefix { bytes }` (commitment.rs 118-134); the
struct derives `Default` in the source (commitment.rs 131). -/
structure CommitmentPrefixM where
  bytes : List Nat
deriving DecidableEq

/-- Mirrors the derived `Default for CommitmentPrefix` (commitment.rs
131): `Vec::default()`, i.e. the empty byte vector. -/
def CommitmentPrefixM.defaultValue : CommitmentPrefixM := ⟨[]⟩

/-- Mirrors `TryFrom<Vec<u8>> for CommitmentPrefix` (commitment.rs
146-156): an empty vector is rejected with `EmptyCommitmentPrefix`. -/
def commitmentPrefixTryFrom (bytes : List Nat) :
    Except CommitmentErrorM CommitmentPrefixM :=
  if bytes.isEmpty then .error .emptyCommitmentPrefix else .ok ⟨bytes⟩

/-- C9 counterexample: `CommitmentPrefix` derives `Default`
(commitment.rs 131), a public constructor that yields a prefix with empty
bytes without going through `TryFrom<Vec<u8>>` (the repository's own
recv_packet test builds a connection counterparty with
`Default::default()` as prefix), so not every publicly reachable
`CommitmentPrefix` holds non-empty bytes. -/
theorem c9_empty_default_counterexample :
    CommitmentPrefixM.defaultValue.bytes = [] ∧
    commitmentPrefixTryFrom [] = .error .emptyCommitmentPrefix :=
  ⟨rfl, rfl⟩

/-- C9 (amended): `TryFrom<Vec<u8>>` for `CommitmentPrefix` and
`CommitmentProofBytes` fails (with `EmptyCommitmentPrefix` /
`EmptyMerkleProof` respectively) exactly on the empty vector, and every
value it accepts holds exactly the given non-empty bytes; however
`CommitmentPrefix` additionally derives `Default`, a public constructor
producing the empty prefix, so the non-emptiness invariant holds only for
`TryFrom`-constructed values. -/
theorem c9_commitment_nonempty (bytes : List Nat) :
    (commitmentPrefixTryFrom bytes = .error .emptyCommitmentPrefix ↔ bytes = []) ∧
    (commitmentProofBytesTryFrom bytes = .error .emptyMerkleProof ↔ bytes = []) ∧
    (∀ p, commitmentPrefixTryFrom bytes = .ok p → p.bytes = bytes ∧ bytes ≠ []) ∧
    (∀ p, commitmentProofBytesTryFrom bytes = .ok p → p.bytes = bytes ∧ bytes ≠ []) := by
  by_cases hb : bytes = []
  · subst hb
    refine ⟨by simp [commitmentPrefixTryFrom],
      by simp [commitmentProofBytesTryFrom], ?_, ?_⟩
    · intro p hp
      exact absurd hp (by simp [commitmentPrefixTryFrom])
    · intro p hp
      exact absurd hp (by simp [commitmentProofBytesTryFrom])
  · have hbe : bytes.isEmpty = false := by
      simpa [List.isEmpty_iff] using hb
    refine ⟨by simp [commitmentPrefixTryFrom, hbe, hb],
      by simp [commitmentProofBytesTryFrom, hbe, hb], ?_, ?_⟩
    · intro p hp
      simp only [commitmentPrefixTryFrom, hbe, Bool.false_eq_true, if_false,
        Except.ok.injEq] at hp
      exact ⟨by rw [← hp], hb⟩
    · intro p hp
      simp only [commitmentProofBytesTryFrom, hbe, Bool.false_eq_true, if_false,
        Except.ok.injEq] at hp
      exact ⟨by rw [← hp], hb⟩

/-- C9 witness: the amended theorem evaluated on the empty vector (both
error kinds) and on a concrete non-empty vector. -/
theorem c9_commitment_nonempty_witness :
    commitmentPrefixTryFrom [] = .error .emptyCommitmentPrefix ∧
    commitmentProofBytesTryFrom [] = .error .emptyMerkleProof ∧
    ((⟨[7]⟩ : CommitmentPrefixM).bytes = [7] ∧ [7] ≠ ([] : List Nat)) :=
  ⟨(c9_commitment_nonempty []).1.2 rfl,
   (c9_commitment_nonempty []).2.1.2 rfl,
   (c9_commitment_nonempty [7]).2.2.1 ⟨[7]⟩ rfl⟩

/-- Channel states (ics04 `channel.rs`); `opened` mirrors `State::Open`. -/
inductive ChanState where
  | uninitialized
  | init
  | tryOpen
  | opened
  | closed
deriving DecidableEq

/-- Channel orderings (ics04 `channel.rs`); `noOrder` mirrors
`Order::None`. -/
inductive ChanOrder where
  | noOrder
  | unordered
  | ordered
deriving DecidableEq

/-- Mirrors ics04 `Counterparty { port_id, channel_id }`. -/
structure CounterpartyM where
  portId : String
  channelId : Option String
deriving DecidableEq

/-- Mirrors ics04 `ChannelEnd`; `state_matches`, `order_matches` and
`counterparty_matches` are equality tests on the corresponding fields. -/
structure ChannelEnd where
  state : ChanState
  ordering : ChanOrder
  remote : CounterpartyM
  connectionHops : List String
  version : String
deriving DecidableEq

/-- Connection states (ics03 `connection.rs`); `opened` mirrors
`State::Open`. -/
inductive ConnState where
  | uninitialized
  | init
  | tryOpen
  | opened
deriving DecidableEq

/-- Mirrors ics03 `ConnectionEnd`, restricted to the fields the
recv_packet handler reads (state and client id; the delay period is only
consumed by the Tendermint delay check, which claims C5/C6 hold fixed
behind the proof oracle). -/
structure ConnectionEnd where
  state : ConnState
  clientId : String
  delayPeriodNanos : Nat
deriving DecidableEq

/-- Mirrors ics04 `Packet` (spec §3).  A timeout height of `none` mirrors
the zero "no height timeout" value. -/
structure Packet where
  sequence : Nat
  portOnA : String
  chanOnA : String
  portOnB : String
  chanOnB : String
  data : List Nat
  timeoutHeightOnB : Option Height
  timeoutTimestampOnB : Nat
deriving DecidableEq

/-- Mirrors `MsgRecvPacket` (the signer plays no role in the handler). -/
structure MsgRecvPacket where
  packet : Packet
  proofCommitmentOnA : List Nat
  proofHeightOnA : Height
deriving DecidableEq

/-- Mirrors `Receipt::Ok`. -/
inductive ReceiptM where
  | ok
deriving DecidableEq

/-- Packet-flow error kinds (ics04 `error.rs`) raised by the recv_packet
handler; reader-lookup failures surfaced through `PacketError::Channel`
appear as dedicated missing-resource kinds. -/
inductive PacketErrorM where
  | channelMissing
  | invalidChannelState
  | invalidPacketCounterparty
  | connectionMissing
  | connectionNotOpen
  | lowPacketHeight
  | lowPacketTimestamp
  | frozenClient
  | clientMissing
  | consensusMissing
  | packetVerificationFailed
  | nextSequenceRecvMissing
  | invalidPacketSequence (givenSequence nextSequence : Nat)
  | packetReceiptNotFound (sequence : Nat)
  | implementationSpecific
deriving DecidableEq

/-- Mirrors `RecvPacketResult` (recv_packet.rs 15-29). -/
inductive RecvPacketResult where
  | noOp
  | unordered (portId chanId : String) (sequence : Nat) (receipt : ReceiptM)
  | ordered (portId chanId : String) (nextSeqRecv : Nat)
deriving DecidableEq

/-- Mirrors the `ReceivePacket` event, the only event this core emits. -/
structure ReceivePacketEvent where
  packet : Packet
  ordering : ChanOrder
  connectionId : String
deriving DecidableEq

/-- Mirrors `HandlerOutput { result, log, events }` as assembled by
`output.with_result(result)` after the log and event emissions. -/
structure HandlerOutputM where
  result : RecvPacketResult
  log : List String
  events : List ReceivePacketEvent
deriving DecidableEq

/-- Abstract client state as the recv_packet handler sees it through
`dyn ClientState`: only `is_frozen` (i.e. `frozen_height`) is inspected
directly; proof verification is dispatched dynamically and modelled by
the oracle in the reader. -/
structure DynClientState where
  frozenHeight : Option Height
deriving DecidableEq

/-- Host-provided `ChannelReader` (spec §6) for chain B, with the
dynamically dispatched `verify_packet_data` as a boolean oracle and the
host's `packet_commitment` policy as an opaque function. -/
structure ChannelReaderM where
  channelEnd : String → String → Option ChannelEnd
  connectionEnd : String → Option ConnectionEnd
  hostHeight : Height
  hostTimestamp : Nat
  clientState : String → Option DynClientState
  clientConsensusStateRoot : String → Height → Option Nat
  packetCommitment : List Nat → Option Height → Nat → Nat
  verifyPacketData :
    Height → ConnectionEnd → List Nat → Nat → String → String → Nat → Nat → Bool
  nextSequenceRecv : String → String → Option Nat
  packetReceipt : String → String → Nat → Except PacketErrorM ReceiptM

/-- Modelled from the spec: `TimeoutHeight::has_expired` (ics04
`timeout.rs`, not under `src/`); a zero timeout height (`none`) means "no
height timeout", otherwise the packet has expired relative to the host
height once that height reaches the timeout. -/
def timeoutHeightExpired : Option Height → Height → Bool
  | none, _ => false
  | some th, h => decide (th ≤ h)

/-- Modelled from the spec: `Timestamp::check_expiry` (`timestamp.rs`, not
under `src/`); spec §4.6 step 4: with `t_now = host_timestamp`, reject if
`t_now ≥ timeout_timestamp_on_b`.  The spec gives the zero timestamp no
special treatment, so a zero timeout is expired at every host time. -/
def timestampExpiryExpired (now timeoutTs : Nat) : Bool :=
  decide (timeoutTs ≤ now)

/-- Sequence bookkeeping of `process` (recv_packet.rs 128-173): ordered
channels compare the packet sequence with `next_seq_recv`; unordered
channels consult the receipt, where the source's string comparison of the
error amounts to matching the `PacketReceiptNotFound` kind at the
packet's sequence. -/
def recvPacketSequencing (ctx : ChannelReaderM) (msg : MsgRecvPacket)
    (chanEnd : ChannelEnd) : Except PacketErrorM RecvPacketResult :=
  if chanEnd.ordering = ChanOrder.ordered then
    match ctx.nextSequenceRecv msg.packet.portOnB msg.packet.chanOnB with
    | none => .error .nextSequenceRecvMissing
    | some nextSeqRecv =>
      if nextSeqRecv < msg.packet.sequence then
        .error (.invalidPacketSequence msg.packet.sequence nextSeqRecv)
      else if msg.packet.sequence < nextSeqRecv then
        .ok .noOp
      else
        .ok (.ordered msg.packet.portOnB msg.packet.chanOnB (nextSeqRecv + 1))
  else
    match ctx.packetReceipt msg.packet.portOnB msg.packet.chanOnB
        msg.packet.sequence with
    | .ok _ => .ok .noOp
    | .error e =>
      if e = .packetReceiptNotFound msg.packet.sequence then
        .ok (.unordered msg.packet.portOnB msg.packet.chanOnB
          msg.packet.sequence ReceiptM.ok)
      else .error .implementationSpecific

/-- Mirrors `process` (recv_packet.rs 32-184): channel, counterparty and
connection checks, the two timeout checks, the client checks with the
packet-commitment proof verification, then the sequence bookkeeping; on
success the handler logs and emits the single `ReceivePacket` event.  The
source indexes `connection_hops()[0]` and would panic on an empty hop
list; the model returns `implementationSpecific` there, a case no claim
exercises. -/
def recvPacketProcess (ctx : ChannelReaderM) (msg : MsgRecvPacket) :
    Except PacketErrorM HandlerOutputM :=
  match ctx.channelEnd msg.packet.portOnB msg.packet.chanOnB with
  | none => .error .channelMissing
  | some chanEnd =>
    if chanEnd.state ≠ ChanState.opened then .error .invalidChannelState
    else if chanEnd.remote ≠ ⟨msg.packet.portOnA, some msg.packet.chanOnA⟩ then
      .error .invalidPacketCounterparty
    else
      match chanEnd.connectionHops.head? with
      | none => .error .implementationSpecific
      | some connId =>
        match ctx.connectionEnd connId with
        | none => .error .connectionMissing
        | some connEnd =>
          if connEnd.state ≠ ConnState.opened then .error .connectionNotOpen
          else if timeoutHeightExpired msg.packet.timeoutHeightOnB ctx.hostHeight then
            .error .lowPacketHeight
          else if timestampExpiryExpired ctx.hostTimestamp
              msg.packet.timeoutTimestampOnB then
            .error .lowPacketTimestamp
          else
            match ctx.clientState connEnd.clientId with
            | none => .error .clientMissing
            | some clientSt =>
              if clientSt.frozenHeight.isSome then .error .frozenClient
              else
                match ctx.clientConsensusStateRoot connEnd.clientId
                    msg.proofHeightOnA with
                | none => .error .consensusMissing
                | some root =>
                  if ctx.verifyPacketData msg.proofHeightOnA connEnd
                      msg.proofCommitmentOnA root msg.packet.portOnA
                      msg.packet.chanOnA msg.packet.sequence
                      (ctx.packetCommitment msg.packet.data
                        msg.packet.timeoutHeightOnB
                        msg.packet.timeoutTimestampOnB) = false then
                    .error .packetVerificationFailed
                  else
                    match recvPacketSequencing ctx msg chanEnd with
                    | .error e => .error e
                    | .ok result =>
                      .ok ⟨result, ["success: packet receive"],
                        [⟨msg.packet, chanEnd.ordering, connId⟩]⟩

theorem recvPacketSequencing_ne_lowPacketTimestamp (ctx : ChannelReaderM)
    (msg : MsgRecvPacket) (chanEnd : ChannelEnd) :
    recvPacketSequencing ctx msg chanEnd ≠ .error .lowPacketTimestamp := by
  intro hc
  unfold recvPacketSequencing at hc
  split at hc
  · split at hc
    · simp at hc
    · split_ifs at hc <;> simp_all
  · split at hc
    · simp at hc
    · split_ifs at hc <;> simp_all

/-- C5: on an ordered channel, once the channel, counterparty, connection,
timeout, client and proof checks pass, the handler rejects a sequence
above `next_seq_recv` with `InvalidPacketSequence`, treats a sequence
below it as a successful `NoOp`, and at equality succeeds with
`Ordered { next_seq_recv + 1 }` (emitting the `ReceivePacket` event). -/
theorem c5_recv_packet_ordered (ctx : ChannelReaderM) (msg : MsgRecvPacket)
    (chanEnd : ChannelEnd) (connId : String) (connEnd : ConnectionEnd)
    (clientSt : DynClientState) (root : Nat) (nextSeqRecv : Nat)
    (hce : ctx.channelEnd msg.packet.portOnB msg.packet.chanOnB = some chanEnd)
    (hst : chanEnd.state = ChanState.opened)
    (hcp : chanEnd.remote = ⟨msg.packet.portOnA, some msg.packet.chanOnA⟩)
    (hhop : chanEnd.connectionHops.head? = some connId)
    (hconn : ctx.connectionEnd connId = some connEnd)
    (hcs : connEnd.state = ConnState.opened)
    (hth : timeoutHeightExpired msg.packet.timeoutHeightOnB ctx.hostHeight = false)
    (hts : timestampExpiryExpired ctx.hostTimestamp
      msg.packet.timeoutTimestampOnB = false)
    (hcl : ctx.clientState connEnd.clientId = some clientSt)
    (hfr : clientSt.frozenHeight = none)
    (hroot : ctx.clientConsensusStateRoot connEnd.clientId
      msg.proofHeightOnA = some root)
    (hvp : ctx.verifyPacketData msg.proofHeightOnA connEnd msg.proofCommitmentOnA
      root msg.packet.portOnA msg.packet.chanOnA msg.packet.sequence
      (ctx.packetCommitment msg.packet.data msg.packet.timeoutHeightOnB
        msg.packet.timeoutTimestampOnB) = true)
    (hord : chanEnd.ordering = ChanOrder.ordered)
    (hseq : ctx.nextSequenceRecv msg.packet.portOnB msg.packet.chanOnB =
      some nextSeqRecv) :
    (nextSeqRecv < msg.packet.sequence →
      recvPacketProcess ctx msg =
        .error (.invalidPacketSequence msg.packet.sequence nextSeqRecv)) ∧
    (msg.packet.sequence < nextSeqRecv →
      recvPacketProcess ctx msg =
        .ok ⟨.noOp, ["success: packet receive"],
          [⟨msg.packet, chanEnd.ordering, connId⟩]⟩) ∧
    (msg.packet.sequence = nextSeqRecv →
      recvPacketProcess ctx msg =
        .ok ⟨.ordered msg.packet.portOnB msg.packet.chanOnB (nextSeqRecv + 1),
          ["success: packet receive"],
          [⟨msg.packet, chanEnd.ordering, connId⟩]⟩) := by
  have hred : recvPacketProcess ctx msg =
      match recvPacketSequencing ctx msg chanEnd with
      | .error e => .error e
      | .ok result =>
        .ok ⟨result, ["success: packet receive"],
          [⟨msg.packet, chanEnd.ordering, connId⟩]⟩ := by
    simp only [recvPacketProcess, hce, hhop, hconn, hcl, hroot]
    rw [if_neg (by simp [hst]), if_neg (by simp [hcp]), if_neg (by simp [hcs]),
      if_neg (by simp [hth]), if_neg (by simp [hts]), if_neg (by simp [hfr]),
      if_neg (by simp [hvp])]
  have hseqred : recvPacketSequencing ctx msg chanEnd =
      (if nextSeqRecv < msg.packet.sequence then
        .error (.invalidPacketSequence msg.packet.sequence nextSeqRecv)
      else if msg.packet.sequence < nextSeqRecv then .ok RecvPacketResult.noOp
      else .ok (.ordered msg.packet.portOnB msg.packet.chanOnB
        (nextSeqRecv + 1))) := by
    simp only [recvPacketSequencing, hseq]
    rw [if_pos hord]
  refine ⟨?_, ?_, ?_⟩
  · intro hgt
    rw [hred, hseqred, if_pos hgt]
  · intro hlt
    rw [hred, hseqred, if_neg (by omega), if_pos hlt]
  · intro heq
    rw [hred, hseqred, if_neg (by omega), if_neg (by omega)]

/-- C6: with the channel, counterparty, connection and height-timeout
checks passing, the handler rejects with `LowPacketTimestamp` exactly when
the host timestamp has reached the packet's timeout timestamp
(`t_now ≥ timeout_timestamp_on_b`); in the spec's model the zero timeout
timestamp receives no special treatment, so it is always expired. -/
theorem c6_recv_packet_timestamp (ctx : ChannelReaderM) (msg : MsgRecvPacket)
    (chanEnd : ChannelEnd) (connId : String) (connEnd : ConnectionEnd)
    (hce : ctx.channelEnd msg.packet.portOnB msg.packet.chanOnB = some chanEnd)
    (hst : chanEnd.state = ChanState.opened)
    (hcp : chanEnd.remote = ⟨msg.packet.portOnA, some msg.packet.chanOnA⟩)
    (hhop : chanEnd.connectionHops.head? = some connId)
    (hconn : ctx.connectionEnd connId = some connEnd)
    (hcs : connEnd.state = ConnState.opened)
    (hth : timeoutHeightExpired msg.packet.timeoutHeightOnB ctx.hostHeight = false) :
    (recvPacketProcess ctx msg = .error .lowPacketTimestamp ↔
      msg.packet.timeoutTimestampOnB ≤ ctx.hostTimestamp) := by
  constructor
  · intro heq
    by_contra hnle
    have hts : timestampExpiryExpired ctx.hostTimestamp
        msg.packet.timeoutTimestampOnB = false := by
      simp only [timestampExpiryExpired, decide_eq_false_iff_not]
      omega
    simp only [recvPacketProcess, hce, hhop, hconn] at heq
    rw [if_neg (by simp [hst]), if_neg (by simp [hcp]), if_neg (by simp [hcs]),
      if_neg (by simp [hth]), if_neg (by simp [hts])] at heq
    rcases hcl : ctx.clientState connEnd.clientId with _ | clientSt
    · simp only [hcl] at heq
      simp at heq
    · simp only [hcl] at heq
      by_cases hfr : clientSt.frozenHeight.isSome
      · rw [if_pos hfr] at heq
        simp at heq
      · rw [if_neg hfr] at heq
        rcases hroot : ctx.clientConsensusStateRoot connEnd.clientId
            msg.proofHeightOnA with _ | root
        · simp only [hroot] at heq
          simp at heq
        · simp only [hroot] at heq
          by_cases hvp : ctx.verifyPacketData msg.proofHeightOnA connEnd
              msg.proofCommitmentOnA root msg.packet.portOnA msg.packet.chanOnA
              msg.packet.sequence
              (ctx.packetCommitment msg.packet.data msg.packet.timeoutHeightOnB
                msg.packet.timeoutTimestampOnB) = false
          · rw [if_pos hvp] at heq
            simp at heq
          · rw [if_neg hvp] at heq
            rcases hsr : recvPacketSequencing ctx msg chanEnd with e | r
            · simp only [hsr] at heq
              have he : e = PacketErrorM.lowPacketTimestamp := by
                simpa using heq
              exact recvPacketSequencing_ne_lowPacketTimestamp ctx msg chanEnd
                (he ▸ hsr)
            · simp only [hsr] at heq
              simp at heq
  · intro hle
    have htsx : timestampExpiryExpired ctx.hostTimestamp
        msg.packet.timeoutTimestampOnB = true := by
      simp [timestampExpiryExpired, hle]
    simp only [recvPacketProcess, hce, hhop, hconn]
    rw [if_neg (by simp [hst]), if_neg (by simp [hcp]), if_neg (by simp [hcs]),
      if_neg (by simp [hth]), if_pos htsx]

/-- Packet for the C5 witness (spec scenario 7 shape). -/
def c5Packet : Packet :=
  { sequence := 1, portOnA := "transfer", chanOnA := "channel-0",
    portOnB := "transfer", chanOnB := "channel-1", data := [1, 2],
    timeoutHeightOnB := some ⟨0, 100⟩, timeoutTimestampOnB := 5000 }

/-- Message for the C5 witness. -/
def c5Msg : MsgRecvPacket :=
  { packet := c5Packet, proofCommitmentOnA := [9], proofHeightOnA := ⟨0, 10⟩ }

/-- Open ordered channel end matching the C5 packet's counterparty. -/
def c5ChanEnd : ChannelEnd :=
  { state := .opened, ordering := .ordered,
    remote := ⟨"transfer", some "channel-0"⟩,
    connectionHops := ["connection-0"], version := "ics20-1" }

/-- Open connection end for the C5 witness. -/
def c5ConnEnd : ConnectionEnd :=
  { state := .opened, clientId := "07-tendermint-0", delayPeriodNanos := 0 }

/-- Reader for the C5 witness: everything prepared, `next_seq_recv = 1`,
accepting proof oracle. -/
def c5Ctx : ChannelReaderM :=
  { channelEnd := fun p c =>
      if p = "transfer" ∧ c = "channel-1" then some c5ChanEnd else none,
    connectionEnd := fun c => if c = "connection-0" then some c5ConnEnd else none,
    hostHeight := ⟨0, 11⟩,
    hostTimestamp := 100,
    clientState := fun _ => some ⟨none⟩,
    clientConsensusStateRoot := fun _ _ => some 42,
    packetCommitment := fun _ _ _ => 7,
    verifyPacketData := fun _ _ _ _ _ _ _ _ => true,
    nextSequenceRecv := fun _ _ => some 1,
    packetReceipt := fun _ _ s => .error (.packetReceiptNotFound s) }

/-- C5 witness: the theorem applied at a concrete prepared context with
`packet.sequence = next_seq_recv = 1`, yielding the successful
`Ordered { next_seq_recv = 2 }` result with one `ReceivePacket` event. -/
theorem c5_recv_packet_ordered_witness :
    recvPacketProcess c5Ctx c5Msg =
      .ok ⟨.ordered "transfer" "channel-1" 2, ["success: packet receive"],
        [⟨c5Packet, ChanOrder.ordered, "connection-0"⟩]⟩ :=
  (c5_recv_packet_ordered c5Ctx c5Msg c5ChanEnd "connection-0" c5ConnEnd ⟨none⟩ 42 1
    rfl rfl rfl rfl rfl rfl rfl rfl rfl rfl rfl rfl rfl rfl).2.2 rfl

/-- Packet for the C6 witness: `timeout_timestamp_on_b = 1 ns` (spec
scenario 8). -/
def c6Packet : Packet :=
  { sequence := 1, portOnA := "transfer", chanOnA := "channel-0",
    portOnB := "transfer", chanOnB := "channel-1", data := [1, 2],
    timeoutHeightOnB := some ⟨0, 100⟩, timeoutTimestampOnB := 1 }

/-- Message for the C6 witness. -/
def c6Msg : MsgRecvPacket :=
  { packet := c6Packet, proofCommitmentOnA := [9], proofHeightOnA := ⟨0, 10⟩ }

/-- Open ordered channel end for the C6 witness. -/
def c6ChanEnd : ChannelEnd :=
  { state := .opened, ordering := .ordered,
    remote := ⟨"transfer", some "channel-0"⟩,
    connectionHops := ["connection-0"], version := "ics20-1" }

/-- Open connection end for the C6 witness. -/
def c6ConnEnd : ConnectionEnd :=
  { state := .opened, clientId := "07-tendermint-0", delayPeriodNanos := 0 }

/-- Reader for the C6 witness: host timestamp far beyond the packet's
1 ns timeout. -/
def c6Ctx : ChannelReaderM :=
  { channelEnd := fun p c =>
      if p = "transfer" ∧ c = "channel-1" then some c6ChanEnd else none,
    connectionEnd := fun c => if c = "connection-0" then some c6ConnEnd else none,
    hostHeight := ⟨0, 11⟩,
    hostTimestamp := 1000,
    clientState := fun _ => some ⟨none⟩,
    clientConsensusStateRoot := fun _ _ => some 42,
    packetCommitment := fun _ _ _ => 7,
    verifyPacketData := fun _ _ _ _ _ _ _ _ => true,
    nextSequenceRecv := fun _ _ => some 1,
    packetReceipt := fun _ _ s => .error (.packetReceiptNotFound s) }

/-- C6 witness: the theorem applied at the concrete expired-timeout
context of spec scenario 8. -/
theorem c6_recv_packet_timestamp_witness :
    recvPacketProcess c6Ctx c6Msg = .error .lowPacketTimestamp ↔
      c6Msg.packet.timeoutTimestampOnB ≤ c6Ctx.hostTimestamp :=
  c6_recv_packet_timestamp c6Ctx c6Msg c6ChanEnd "connection-0" c6ConnEnd
    rfl rfl rfl rfl rfl rfl rfl

/-- Mirrors `MockHeader { height, timestamp }` (mock/header.rs). -/
structure MockHeader where
  height : Height
  timestamp : Nat
deriving DecidableEq

/-- Mirrors `MockClientState { header, frozen_height }`
(mock/client_state.rs 64-69). -/
structure MockClientState where
  header : MockHeader
  frozenHeight : Option Height
deriving DecidableEq

/-- The one ics02 `ClientError` kind a mock verifier could name
(`ClientArgsTypeMismatch`); none of the eight ever raises anything. -/
inductive ClientErrorM where
  | clientArgsTypeMismatch
deriving DecidableEq

/-- Merkle path produced by `apply_prefix` (ics23 `merkle.rs`, not under
`src/`); modelled from the spec (§4.4): the commitment prefix applied to
the key path. -/
structure MerklePathM where
  prefixBytes : List Nat
  keyPath : List String
deriving DecidableEq

/-- Modelled from the spec (§4.4): `apply_prefix(prefix, [path_string]) ⇒
merkle_path`. -/
def applyPrefixM (pfx : CommitmentPrefixM) (paths : List String) : MerklePathM :=
  ⟨pfx.bytes, paths⟩

/-- Path string `clients/<id>/consensusStates/<rev>-<height>` (spec §4.4
path table). -/
def clientConsensusStatePathStr (clientId : String) (h : Height) : String :=
  "clients/" ++ clientId ++ "/consensusStates/" ++ toString h.revisionNumber
    ++ "-" ++ toString h.revisionHeight

/-- Mirrors `MockClientState::verify_client_consensus_state`
(mock/client_state.rs 299-319): builds the prefixed consensus path, then
returns `Ok` unconditionally. -/
def mockVerifyClientConsensusState (_cs : MockClientState) (_height : Height)
    (pfx : CommitmentPrefixM) (_proof : CommitmentProofBytesM) (_root : Nat)
    (clientId : String) (consensusHeight : Height) (_expected : Nat) :
    Except ClientErrorM Unit :=
  let clientPrefixedPath := clientConsensusStatePathStr clientId consensusHeight
  let _path := applyPrefixM pfx [clientPrefixedPath]
  .ok ()

/-- Mirrors `MockClientState::verify_connection_state`
(mock/client_state.rs 321-331): `Ok` unconditionally. -/
def mockVerifyConnectionState (_cs : MockClientState) (_height : Height)
    (_pfx : CommitmentPrefixM) (_proof : CommitmentProofBytesM) (_root : Nat)
    (_connectionId : String) (_expectedConnectionEnd : ConnectionEnd) :
    Except ClientErrorM Unit :=
  .ok ()

/-- Mirrors `MockClientState::verify_channel_state`
(mock/client_state.rs 333-344): `Ok` unconditionally. -/
def mockVerifyChannelState (_cs : MockClientState) (_height : Height)
    (_pfx : CommitmentPrefixM) (_proof : CommitmentProofBytesM) (_root : Nat)
    (_portId _channelId : String) (_expectedChannelEnd : ChannelEnd) :
    Except ClientErrorM Unit :=
  .ok ()

/-- Mirrors `MockClientState::verify_client_full_state`
(mock/client_state.rs 346-356): `Ok` unconditionally. -/
def mockVerifyClientFullState (_cs : MockClientState) (_height : Height)
    (_pfx : CommitmentPrefixM) (_proof : CommitmentProofBytesM) (_root : Nat)
    (_clientId : String) (_expectedClientState : Nat) :
    Except ClientErrorM Unit :=
  .ok ()

/-- Mirrors `MockClientState::verify_packet_data`
(mock/client_state.rs 358-371): `Ok` unconditionally. -/
def mockVerifyPacketData (_cs : MockClientState) (_ctx : ChannelReaderM)
    (_height : Height) (_connectionEnd : ConnectionEnd)
    (_proof : CommitmentProofBytesM) (_root : Nat) (_portId _channelId : String)
    (_sequence : Nat) (_commitment : Nat) : Except ClientErrorM Unit :=
  .ok ()

/-- Mirrors `MockClientState::verify_packet_acknowledgement`
(mock/client_state.rs 373-386): `Ok` unconditionally. -/
def mockVerifyPacketAcknowledgement (_cs : MockClientState) (_ctx : ChannelReaderM)
    (_height : Height) (_connectionEnd : ConnectionEnd)
    (_proof : CommitmentProofBytesM) (_root : Nat) (_portId _channelId : String)
    (_sequence : Nat) (_ack : Nat) : Except ClientErrorM Unit :=
  .ok ()

/-- Mirrors `MockClientState::verify_next_sequence_recv`
(mock/client_state.rs 388-400): `Ok` unconditionally. -/
def mockVerifyNextSequenceRecv (_cs : MockClientState) (_ctx : ChannelReaderM)
    (_height : Height) (_connectionEnd : ConnectionEnd)
    (_proof : CommitmentProofBytesM) (_root : Nat) (_portId _channelId : String)
    (_sequence : Nat) : Except ClientErrorM Unit :=
  .ok ()

/-- Mirrors `MockClientState::verify_packet_receipt_absence`
(mock/client_state.rs 402-414): `Ok` unconditionally. -/
def mockVerifyPacketReceiptAbsence (_cs : MockClientState) (_ctx : ChannelReaderM)
    (_height : Height) (_connectionEnd : ConnectionEnd)
    (_proof : CommitmentProofBytesM) (_root : Nat) (_portId _channelId : String)
    (_sequence : Nat) : Except ClientErrorM Unit :=
  .ok ()

/-- C10: for every input, all eight proof-verification methods of
`MockClientState` return `Ok`: the mock performs no proof, height, freeze
or delay checking whatsoever. -/
theorem c10_mock_verifiers_trivial (cs : MockClientState) (ctx : ChannelReaderM)
    (height consensusHeight : Height) (pfx : CommitmentPrefixM)
    (proof : CommitmentProofBytesM) (root : Nat)
    (clientId connectionId portId channelId : String)
    (connectionEnd : ConnectionEnd) (channelEnd : ChannelEnd)
    (sequence expectedConsensus expectedClient commitment ack : Nat) :
    mockVerifyClientConsensusState cs height pfx proof root clientId
      consensusHeight expectedConsensus = .ok () ∧
    mockVerifyConnectionState cs height pfx proof root connectionId
      connectionEnd = .ok () ∧
    mockVerifyChannelState cs height pfx proof root portId channelId
      channelEnd = .ok () ∧
    mockVerifyClientFullState cs height pfx proof root clientId
      expectedClient = .ok () ∧
    mockVerifyPacketData cs ctx height connectionEnd proof root portId
      channelId sequence commitment = .ok () ∧
    mockVerifyPacketAcknowledgement cs ctx height connectionEnd proof root
      portId channelId sequence ack = .ok () ∧
    mockVerifyNextSequenceRecv cs ctx height connectionEnd proof root portId
      channelId sequence = .ok () ∧
    mockVerifyPacketReceiptAbsence cs ctx height connectionEnd proof root
      portId channelId sequence = .ok () :=
  ⟨rfl, rfl, rfl, rfl, rfl, rfl, rfl, rfl⟩
